import Mathlib

/-!
Verification of the SAP-1 emulator (`main.py`).

The machine state is a record of registers and a 16-cell memory list,
mirroring the attributes set in `SAP1.__init__`.  Python exceptions are
modelled as error values of an `Except`: `Halt` and `InvalidInstruction`
are the two conditions raised by instruction execution, and `IndexError`
models an out-of-range list access (Python raises it; nothing in the
program catches it).  Each instruction method of the Python class becomes
a function from machine states to an `Except` result that also carries
the list of values printed by `OUT` during that instruction.
-/

/-- The Python exceptions that can escape instruction execution:
`Halt` carries the program counter at raise time, `InvalidInstruction`
carries the offending IR byte, and `indexError` models Python's
`IndexError` from an out-of-range list subscript. -/
inductive PyExc where
  | halt : Nat → PyExc
  | invalidInstruction : Nat → PyExc
  | indexError : PyExc
deriving DecidableEq, Repr

/-- The message printed by `emulate` when it catches one of the two
terminal conditions: the halt message names the PC, the fault message
names the IR byte. -/
inductive Msg where
  | haltMsg : Nat → Msg
  | faultMsg : Nat → Msg
deriving DecidableEq, Repr

/-- The machine state: the fields of `SAP1.__init__` (`main.py` lines
60-72).  All registers are unbounded naturals, as Python ints are; the
emulator keeps them in range only through the explicit `% 16` / `% 256`
in the code. -/
structure SAP1 where
  memory : List Nat
  A_register : Nat
  B_register : Nat
  PC_register : Nat
  RAM : Nat
  MAR : Nat
  IR : Nat
  Carry : Nat
deriving DecidableEq, Repr

namespace SAP1

/-- Result of executing one instruction: the new state plus the values
printed by `OUT`, or an escaping exception. -/
abbrev Exec := Except PyExc (SAP1 × List Nat)

/-- `SAP1.__init__`: all registers and memory locations 0. -/
def init : SAP1 :=
  ⟨List.replicate 16 0, 0, 0, 0, 0, 0, 0, 0⟩

/-- `SAP1.NOP` (lines 81-86): no state change. -/
def NOP (s : SAP1) : Exec := .ok (s, [])

/-- `SAP1.LDA` (lines 88-100): `MAR = IR % 16; A = memory[MAR]`. -/
def LDA (s : SAP1) : Exec :=
  let s := { s with MAR := s.IR % 16 }
  match s.memory.get? s.MAR with
  | some v => .ok ({ s with A_register := v }, [])
  | none => .error .indexError

/-- `SAP1.ADD` (lines 102-111): `B = memory[IR % 16]; sum = A + B;
A = sum % 256; Carry = sum // 256`. -/
def ADD (s : SAP1) : Exec :=
  match s.memory.get? (s.IR % 16) with
  | some v =>
    let s := { s with B_register := v }
    let sum := s.A_register + s.B_register
    .ok ({ s with A_register := sum % 256, Carry := sum / 256 }, [])
  | none => .error .indexError

/-- `SAP1.SUB` (lines 113-124): `B = memory[IR % 16]; diff = A - B;
A = diff % 256; Carry = 1 if diff < 0 else 0`.  Python's `%` on ints is
Euclidean remainder, which is Lean's `Int.emod`. -/
def SUB (s : SAP1) : Exec :=
  match s.memory.get? (s.IR % 16) with
  | some v =>
    let s := { s with B_register := v }
    let diff : Int := (s.A_register : Int) - (s.B_register : Int)
    .ok ({ s with A_register := (diff % 256).toNat,
                  Carry := if diff < 0 then 1 else 0 }, [])
  | none => .error .indexError

/-- `SAP1.STA` (lines 126-132): `memory[IR % 16] = A`. -/
def STA (s : SAP1) : Exec :=
  if s.IR % 16 < s.memory.length then
    .ok ({ s with memory := s.memory.set (s.IR % 16) s.A_register }, [])
  else .error .indexError

/-- `SAP1.JMP` (lines 135-140): `PC = IR % 16`. -/
def JMP (s : SAP1) : Exec := .ok ({ s with PC_register := s.IR % 16 }, [])

/-- `SAP1.LDI` (lines 143-148): `A = IR % 16`. -/
def LDI (s : SAP1) : Exec := .ok ({ s with A_register := s.IR % 16 }, [])

/-- `SAP1.JC` (lines 150-156): `if Carry == 1: PC = IR % 16`. -/
def JC (s : SAP1) : Exec :=
  if s.Carry = 1 then .ok ({ s with PC_register := s.IR % 16 }, [])
  else .ok (s, [])

/-- `SAP1.OUT` (lines 158-163): prints the A register; no state change. -/
def OUT (s : SAP1) : Exec := .ok (s, [s.A_register])

/-- `SAP1.HLT` (lines 165-171): raises `Halt` carrying the current
(already incremented) PC. -/
def HLT (s : SAP1) : Exec := .error (.halt s.PC_register)

/-- `SAP1.UND` (lines 173-179): raises `InvalidInstruction` carrying
the IR byte. -/
def UND (s : SAP1) : Exec := .error (.invalidInstruction s.IR)

/-- The fetch phase of `SAP1.emulate` (lines 200-211):
`MAR = PC; IR = memory[MAR]; PC = (PC + 1) % 16`, in that order. -/
def fetch (s : SAP1) : Except PyExc SAP1 :=
  let s := { s with MAR := s.PC_register }
  match s.memory.get? s.MAR with
  | some v => .ok { s with IR := v, PC_register := (s.PC_register + 1) % 16 }
  | none => .error .indexError

/-- The decode/execute phase (lines 218-221): `opcode = IR // 16;
decoder[opcode]()`.  The arms 0-15 are the `decoder` tuple of
`SAP1.__init__` (lines 76-79); an opcode of 16 or more would index past
the end of the tuple and raise `IndexError` in Python. -/
def execute (s : SAP1) : Exec :=
  match s.IR / 16 with
  | 0 => s.NOP
  | 1 => s.LDA
  | 2 => s.ADD
  | 3 => s.SUB
  | 4 => s.STA
  | 5 => s.OUT
  | 6 => s.JMP
  | 7 => s.LDI
  | 8 => s.JC
  | 9 => s.UND
  | 10 => s.UND
  | 11 => s.UND
  | 12 => s.UND
  | 13 => s.UND
  | 14 => s.UND
  | 15 => s.HLT
  | _ => .error .indexError

/-- One iteration of the fetch/decode/execute loop. -/
def step (s : SAP1) : Exec :=
  match s.fetch with
  | .ok s1 => s1.execute
  | .error e => .error e

/-- The `while True` body of `SAP1.emulate` (lines 190-229), run for a
given number of iterations: returns the outputs printed so far, and
either the state still running after that many iterations or the first
escaping exception. -/
def emulateBody : Nat → SAP1 → List Nat × Except PyExc SAP1
  | 0, s => ([], .ok s)
  | n + 1, s =>
    match s.step with
    | .ok (s1, out) =>
      let r := emulateBody n s1
      (out ++ r.1, r.2)
    | .error e => ([], .error e)

/-- `SAP1.emulate` (lines 181-237) with the given iteration budget: the
loop wrapped in the method's own `except Halt` / `except
InvalidInstruction` clauses, each of which prints a message and returns
normally.  `.ok none` means the budget ran out with the loop still
going; any other exception propagates to the caller. -/
def emulate (s : SAP1) (fuel : Nat) : List Nat × Except PyExc (Option Msg) :=
  let r := s.emulateBody fuel
  match r.2 with
  | .ok _ => (r.1, .ok none)
  | .error (.halt pc) => (r.1, .ok (some (.haltMsg pc)))
  | .error (.invalidInstruction ir) => (r.1, .ok (some (.faultMsg ir)))
  | .error e => (r.1, .error e)

/-- The message `emulate` prints for a caught condition (its two
`except` clauses, lines 231-237); `none` for the exception it does not
catch. -/
def msgOf : PyExc → Option Msg
  | .halt pc => some (.haltMsg pc)
  | .invalidInstruction ir => some (.faultMsg ir)
  | .indexError => none

/-- The memory-installing assignment of `SAP1.load` (line 254):
`self.memory[addr] = value`.  A Python list subscript assignment at a
non-negative index succeeds exactly when the index is below the length;
otherwise it raises `IndexError`, modelled as `none`.  No wrapping of
either the address or the value takes place. -/
def set_memory (s : SAP1) (addr val : Nat) : Option SAP1 :=
  if addr < s.memory.length then
    some { s with memory := s.memory.set addr val }
  else none

/-- Installing a whole program image: the loop of `SAP1.load` over the
parsed (address, value) pairs of the file. -/
def loadImage (s : SAP1) : List (Nat × Nat) → Option SAP1
  | [] => some s
  | (a, v) :: rest =>
    match s.set_memory a v with
    | some s1 => s1.loadImage rest
    | none => none

/-- The sequence of machine-state snapshots after each completed
iteration of the loop, up to the given budget (what `--trace` prints
after each instruction). -/
def statesTrace : Nat → SAP1 → List SAP1
  | 0, _ => []
  | n + 1, s =>
    match s.step with
    | .ok (s1, _) => s1 :: statesTrace n s1
    | .error _ => []

end SAP1

/-! ## Concrete machines used by the witnesses and counterexamples -/

/-- Memory holds 10 at address 15 and the A register holds 250; IR is
an ADD instruction with operand 15 (`0x2F`). -/
def addExampleM : SAP1 :=
  ⟨[0, 0, 0, 0, 0, 0, 0, 0, 0, 0, 0, 0, 0, 0, 0, 10], 250, 0, 0, 0, 0, 0x2F, 0⟩

/-- Memory holds 10 at address 15 and the A register holds 5; IR is a
SUB instruction with operand 15 (`0x3F`). -/
def subExampleM : SAP1 :=
  ⟨[0, 0, 0, 0, 0, 0, 0, 0, 0, 0, 0, 0, 0, 0, 0, 10], 5, 0, 0, 0, 0, 0x3F, 0⟩

/-- A machine about to fetch from address 15 (PC = 15). -/
def fetchWrapM : SAP1 :=
  ⟨[0, 0, 0, 0, 0, 0, 0, 0, 0, 0, 0, 0, 0, 0, 0, 7], 0, 0, 15, 0, 0, 0, 0⟩

/-! ## C1 -/

/-- C1: executing ADD with operand address p on a state whose accessed
cell and A register are 8-bit values loads B from memory at p, wraps A
to (A + B) mod 256 — hence A stays below 256 — and sets Carry to 1
exactly when the pre-wrap sum reaches 256. -/
theorem ADD_wraps_and_sets_carry (s : SAP1) (p b : Nat)
    (hp : s.IR % 16 = p)
    (hb : s.memory.get? p = some b)
    (hb255 : b < 256) (hA : s.A_register < 256) :
    s.ADD = Except.ok ({ s with
                          B_register := b,
                          A_register := (s.A_register + b) % 256,
                          Carry := if 256 ≤ s.A_register + b then 1 else 0 }, [])
      ∧ (s.A_register + b) % 256 < 256 := by
  constructor
  · have hc : (s.A_register + b) / 256 = if 256 ≤ s.A_register + b then 1 else 0 := by
      split <;> omega
    simp only [SAP1.ADD, hp, hb, hc]
  · exact Nat.mod_lt _ (by norm_num)

/-- C1 witness: A=250 and memory[15]=10 give A=4 with Carry=1. -/
theorem ADD_wraps_and_sets_carry_witness :
    addExampleM.IR % 16 = 15 ∧ addExampleM.memory.get? 15 = some 10
      ∧ (10 : Nat) < 256 ∧ addExampleM.A_register < 256
      ∧ (addExampleM.ADD
          = Except.ok ({ addExampleM with B_register := 10, A_register := 4, Carry := 1 }, [])
        ∧ (4 : Nat) < 256) :=
  ⟨by decide, by decide, by decide, by decide,
    ADD_wraps_and_sets_carry addExampleM 15 10 (by decide) (by decide) (by decide) (by decide)⟩

/-! ## C2 -/

/-- C2: executing SUB with operand address p on a state whose accessed
cell and A register are 8-bit values loads B from memory at p, wraps A
to (A - B) mod 256 — a negative difference wraps to 256 + diff, so A
stays below 256 — and sets Carry to 1 exactly when A < B before the
operation. -/
theorem SUB_wraps_and_sets_carry (s : SAP1) (p b : Nat)
    (hp : s.IR % 16 = p)
    (hb : s.memory.get? p = some b)
    (hb255 : b < 256) (hA : s.A_register < 256) :
    s.SUB = Except.ok ({ s with
                          B_register := b,
                          A_register := if s.A_register < b then 256 + s.A_register - b
                                         else s.A_register - b,
                          Carry := if s.A_register < b then 1 else 0 }, [])
      ∧ (if s.A_register < b then 256 + s.A_register - b else s.A_register - b) < 256 := by
  constructor
  · have hd : (((s.A_register : Int) - (b : Int)) % 256).toNat
        = if s.A_register < b then 256 + s.A_register - b else s.A_register - b := by
      split <;> omega
    have hc : (if ((s.A_register : Int) - (b : Int)) < 0 then (1 : Nat) else 0)
        = if s.A_register < b then 1 else 0 := by
      split <;> split <;> omega
    simp only [SAP1.SUB, hp, hb, hd, hc]
  · split <;> omega

/-- C2 witness: A=5 and memory[15]=10 give A=251 with Carry=1. -/
theorem SUB_wraps_and_sets_carry_witness :
    subExampleM.IR % 16 = 15 ∧ subExampleM.memory.get? 15 = some 10
      ∧ (10 : Nat) < 256 ∧ subExampleM.A_register < 256
      ∧ (subExampleM.SUB
          = Except.ok ({ subExampleM with B_register := 10, A_register := 251, Carry := 1 }, [])
        ∧ (251 : Nat) < 256) :=
  ⟨by decide, by decide, by decide, by decide,
    SUB_wraps_and_sets_carry subExampleM 15 10 (by decide) (by decide) (by decide) (by decide)⟩

/-! ## C3 -/

/-- C3: the fetch phase sets MAR to the current PC, loads IR from
memory at that address, then increments PC modulo 16, so the new PC is
always below 16. -/
theorem fetch_increments_PC_mod_16 (s : SAP1) (v : Nat)
    (hv : s.memory.get? s.PC_register = some v) :
    s.fetch = Except.ok { s with
                           MAR := s.PC_register,
                           IR := v,
                           PC_register := (s.PC_register + 1) % 16 }
      ∧ (s.PC_register + 1) % 16 < 16 := by
  constructor
  · simp only [SAP1.fetch, hv]
  · exact Nat.mod_lt _ (by norm_num)

/-- C3 witness: a fetch at PC=15 wraps the program counter to 0. -/
theorem fetch_increments_PC_mod_16_witness :
    fetchWrapM.memory.get? fetchWrapM.PC_register = some 7
      ∧ (fetchWrapM.fetch
          = Except.ok { fetchWrapM with MAR := 15, IR := 7, PC_register := 0 }
        ∧ (0 : Nat) < 16) :=
  ⟨by decide, fetch_increments_PC_mod_16 fetchWrapM 7 (by decide)⟩

/-! ## C4 -/

/-- A machine whose first instruction byte has the undefined opcode
nibble 9 (`0x95`). -/
def undExampleM : SAP1 :=
  ⟨[0x95, 0, 0, 0, 0, 0, 0, 0, 0, 0, 0, 0, 0, 0, 0, 0], 0, 0, 0, 0, 0, 0, 0⟩

/-- C4: executing an instruction byte whose opcode nibble lies in
{9,...,14} raises InvalidInstruction carrying exactly that IR byte, an
outcome distinct from every Halt outcome. -/
theorem undefined_opcode_faults (s : SAP1) (ir : Nat)
    (hv : s.memory.get? s.PC_register = some ir)
    (h9 : 9 ≤ ir / 16) (h14 : ir / 16 ≤ 14) :
    s.step = Except.error (PyExc.invalidInstruction ir)
      ∧ ∀ pc, PyExc.invalidInstruction ir ≠ PyExc.halt pc := by
  refine ⟨?_, fun pc h => PyExc.noConfusion h⟩
  have hk : ir / 16 = 9 ∨ ir / 16 = 10 ∨ ir / 16 = 11 ∨ ir / 16 = 12
      ∨ ir / 16 = 13 ∨ ir / 16 = 14 := by omega
  simp only [SAP1.step, SAP1.fetch, hv]
  rcases hk with hk | hk | hk | hk | hk | hk <;>
    simp only [SAP1.execute, hk, SAP1.UND]

/-- C4 witness: the instruction byte 0x95 (opcode nibble 9) faults
carrying 0x95. -/
theorem undefined_opcode_faults_witness :
    undExampleM.memory.get? undExampleM.PC_register = some 0x95
      ∧ (9 : Nat) ≤ 0x95 / 16 ∧ (0x95 : Nat) / 16 ≤ 14
      ∧ (undExampleM.step = Except.error (PyExc.invalidInstruction 0x95)
        ∧ ∀ pc, PyExc.invalidInstruction 0x95 ≠ PyExc.halt pc) :=
  ⟨by decide, by decide, by decide,
    undefined_opcode_faults undExampleM 0x95 (by decide) (by decide) (by decide)⟩

/-! ## C5 -/

/-- The worked example program: LDA 14; ADD 15; OUT; HLT with data 14
at address 14 and 28 at address 15. -/
def exampleM : SAP1 :=
  ⟨[0x1E, 0x2F, 0x50, 0xF0, 0, 0, 0, 0, 0, 0, 0, 0, 0, 0, 14, 28], 0, 0, 0, 0, 0, 0, 0⟩

/-- The state of the worked example after LDA, ADD and OUT have run:
A holds 42 and PC points at the HLT instruction in address 3. -/
def exampleAfterOUT : SAP1 :=
  ⟨[0x1E, 0x2F, 0x50, 0xF0, 0, 0, 0, 0, 0, 0, 0, 0, 0, 0, 14, 28], 42, 28, 3, 0, 2, 0x50, 0⟩

/-- C5: when the next instruction to fetch is HLT, the run terminates
with no escaping exception: the loop returns normally carrying the halt
message, and the reported PC is the already-incremented one, (PC+1) mod
16. -/
theorem HLT_clean_exit_reports_incremented_PC (s : SAP1) (ir n : Nat)
    (hv : s.memory.get? s.PC_register = some ir)
    (hop : ir / 16 = 15) :
    s.emulate (n + 1)
      = ([], Except.ok (some (Msg.haltMsg ((s.PC_register + 1) % 16)))) := by
  have hstep : s.step = Except.error (PyExc.halt ((s.PC_register + 1) % 16)) := by
    simp only [SAP1.step, SAP1.fetch, hv, SAP1.execute, hop, SAP1.HLT]
  simp [SAP1.emulate, SAP1.emulateBody, hstep]

/-- C5 witness: in the worked example the HLT instruction sits at
address 3, and the halt is reported at PC=4; the full run of the
example also prints 42 from OUT and then reports the halt at PC=4. -/
theorem HLT_clean_exit_reports_incremented_PC_witness :
    exampleAfterOUT.memory.get? exampleAfterOUT.PC_register = some 0xF0
      ∧ (0xF0 : Nat) / 16 = 15
      ∧ exampleAfterOUT.emulate 1 = ([], Except.ok (some (Msg.haltMsg 4)))
      ∧ exampleM.emulate 4 = ([42], Except.ok (some (Msg.haltMsg 4))) :=
  ⟨by decide, by decide,
    HLT_clean_exit_reports_incremented_PC exampleAfterOUT 0xF0 0 (by decide) (by decide),
    rfl⟩

/-! ## C6 -/

/-- C6 counterexample: the memory-installing assignment does not wrap.
Writing at address 16 fails with an index error instead of writing cell
16 mod 16 = 0, and the value 300 is stored verbatim instead of 300 mod
256 = 44. -/
theorem set_memory_does_not_wrap :
    SAP1.set_memory SAP1.init 16 5 = none
      ∧ (SAP1.set_memory SAP1.init 0 300).map (fun m => m.memory.get? 0)
          = some (some 300)
      ∧ (300 : Nat) % 256 = 44 ∧ (300 : Nat) ≠ 44 := by
  exact ⟨rfl, rfl, rfl, by decide⟩

/-- C6 amended: installing a byte performs no wrapping at all.  For an
address below the memory length the cell receives exactly the given
value, every other cell is unchanged, and the registers are untouched;
for an address at or past the memory length the assignment fails with
an index error rather than wrapping. -/
theorem set_memory_exact_roundtrip (s : SAP1) (a v : Nat)
    (ha : a < s.memory.length) :
    s.set_memory a v = some { s with memory := s.memory.set a v }
      ∧ (s.memory.set a v).get? a = some v
      ∧ (∀ j, j ≠ a → (s.memory.set a v).get? j = s.memory.get? j)
      ∧ (∀ a2 v2, s.memory.length ≤ a2 → s.set_memory a2 v2 = none) := by
  refine ⟨by simp [SAP1.set_memory, ha], ?_, ?_, ?_⟩
  · rw [List.get?_set_of_lt' v s.memory ha]
    simp
  · intro j hj
    rw [List.get?_set_of_lt' v s.memory ha, if_neg]
    exact fun h => hj h.symm
  · intro a2 v2 h2
    simp [SAP1.set_memory, Nat.not_lt.mpr h2]

/-- C6 amended witness: writing 300 at address 0 of the fresh machine
keeps 300 verbatim, leaves cell 1 at 0, and address 16 fails. -/
theorem set_memory_exact_roundtrip_witness :
    (0 : Nat) < SAP1.init.memory.length
      ∧ (SAP1.init.set_memory 0 300
            = some { SAP1.init with memory := SAP1.init.memory.set 0 300 }
        ∧ (SAP1.init.memory.set 0 300).get? 0 = some 300
        ∧ (∀ j, j ≠ 0 → (SAP1.init.memory.set 0 300).get? j = SAP1.init.memory.get? j)
        ∧ (∀ a2 v2, SAP1.init.memory.length ≤ a2 → SAP1.init.set_memory a2 v2 = none)) :=
  ⟨by decide, set_memory_exact_roundtrip SAP1.init 0 300 (by decide)⟩

/-! ## C7 -/

/-- During decode/execute, only LDA writes MAR (to its operand); every
other successfully executing instruction leaves MAR as it was. -/
lemma execute_MAR (s s1 : SAP1) (out : List Nat)
    (h : s.execute = Except.ok (s1, out)) :
    s1.MAR = if s.IR / 16 = 1 then s.IR % 16 else s.MAR := by
  unfold SAP1.execute at h
  split at h <;>
    (try simp only [SAP1.NOP, SAP1.LDA, SAP1.ADD, SAP1.SUB, SAP1.STA, SAP1.OUT,
      SAP1.JMP, SAP1.LDI, SAP1.JC, SAP1.HLT, SAP1.UND] at h) <;>
    (try split at h) <;>
    (try exact Except.noConfusion h) <;>
    rw [Except.ok.injEq, Prod.mk.injEq] at h <;>
    (obtain ⟨h1, h2⟩ := h) <;> (subst h1) <;> simp_all

/-- A machine whose first instruction is ADD with operand 15 (`0x2F`),
with 10 stored at address 15 and 250 in the A register. -/
def marExampleM : SAP1 :=
  ⟨[0x2F, 0, 0, 0, 0, 0, 0, 0, 0, 0, 0, 0, 0, 0, 0, 10], 250, 0, 0, 0, 0, 0, 0⟩

/-- The state after one step of `marExampleM`: the ADD read memory cell
15, yet MAR still holds the fetch address 0. -/
def marSteppedM : SAP1 :=
  ⟨[0x2F, 0, 0, 0, 0, 0, 0, 0, 0, 0, 0, 0, 0, 0, 0, 10], 4, 10, 1, 0, 0, 0x2F, 1⟩

/-- C7 counterexample: executing ADD with operand 15 reads memory cell
15, but afterwards MAR holds 0 (the fetch address), not the accessed
address 15 — so MAR does not mirror the operand accesses of ADD. -/
theorem MAR_not_updated_on_ADD :
    marExampleM.step = Except.ok (marSteppedM, [])
      ∧ (0x2F : Nat) % 16 = 15
      ∧ marSteppedM.MAR = 0
      ∧ (0 : Nat) ≠ 15 :=
  ⟨rfl, rfl, rfl, by decide⟩

/-- C7 amended: after a successful step, MAR holds the operand address
only when the executed opcode was LDA; for every other instruction —
including the memory-accessing ADD, SUB and STA — MAR still holds the
fetch address, the PC the instruction was fetched from. -/
theorem MAR_tracks_fetch_and_LDA_only (s : SAP1) (ir : Nat) (s1 : SAP1) (out : List Nat)
    (hv : s.memory.get? s.PC_register = some ir)
    (h : s.step = Except.ok (s1, out)) :
    s1.MAR = if ir / 16 = 1 then ir % 16 else s.PC_register := by
  have hfetch : s.fetch = Except.ok { s with
      MAR := s.PC_register, IR := ir,
      PC_register := (s.PC_register + 1) % 16 } := by
    simp only [SAP1.fetch, hv]
  simp only [SAP1.step, hfetch] at h
  simpa using execute_MAR _ s1 out h

/-- C7 amended witness: after the ADD step of `marExampleM`, MAR holds
the fetch address 0. -/
theorem MAR_tracks_fetch_and_LDA_only_witness :
    marExampleM.memory.get? marExampleM.PC_register = some 0x2F
      ∧ marExampleM.step = Except.ok (marSteppedM, [])
      ∧ marSteppedM.MAR
          = if (0x2F : Nat) / 16 = 1 then 0x2F % 16 else marExampleM.PC_register :=
  ⟨by decide, rfl,
    MAR_tracks_fetch_and_LDA_only marExampleM 0x2F marSteppedM [] (by decide) rfl⟩

/-! ## C8 -/

/-- A machine whose first instruction is HLT (`0xF0`). -/
def haltExampleM : SAP1 :=
  ⟨[0xF0, 0, 0, 0, 0, 0, 0, 0, 0, 0, 0, 0, 0, 0, 0, 0], 0, 0, 0, 0, 0, 0, 0⟩

/-- A machine whose first instruction byte is the undefined 0x90. -/
def faultExampleM : SAP1 :=
  ⟨[0x90, 0, 0, 0, 0, 0, 0, 0, 0, 0, 0, 0, 0, 0, 0, 0], 0, 0, 0, 0, 0, 0, 0⟩

/-- C8 counterexample: neither Halt nor InvalidInstruction propagates
out of the run loop.  On a program that halts, and on one that faults,
the loop returns normally carrying the printed message; its result is
not an escaping error that a caller could catch. -/
theorem emulate_result_is_not_an_error :
    haltExampleM.emulate 1 = ([], Except.ok (some (Msg.haltMsg 1)))
      ∧ haltExampleM.emulate 1 ≠ ([], Except.error (PyExc.halt 1))
      ∧ faultExampleM.emulate 1 = ([], Except.ok (some (Msg.faultMsg 0x90)))
      ∧ faultExampleM.emulate 1 ≠ ([], Except.error (PyExc.invalidInstruction 0x90)) := by
  refine ⟨rfl, fun h => ?_, rfl, fun h => ?_⟩
  · exact Except.noConfusion (congrArg Prod.snd h)
  · exact Except.noConfusion (congrArg Prod.snd h)

/-- C8 amended: it is the run loop itself (`emulate`) that catches both
Halt and InvalidInstruction and turns them into the printed message;
whenever the loop body ends in one of those two conditions, `emulate`
returns normally with the corresponding message. -/
theorem emulate_catches_halt_and_fault (s : SAP1) (fuel : Nat) (e : PyExc)
    (h : (s.emulateBody fuel).2 = Except.error e)
    (he : e ≠ PyExc.indexError) :
    (s.emulate fuel).2 = Except.ok (SAP1.msgOf e) ∧ SAP1.msgOf e ≠ none := by
  cases e with
  | halt pc =>
    refine ⟨?_, by simp [SAP1.msgOf]⟩
    simp [SAP1.emulate, h, SAP1.msgOf]
  | invalidInstruction ir =>
    refine ⟨?_, by simp [SAP1.msgOf]⟩
    simp [SAP1.emulate, h, SAP1.msgOf]
  | indexError => exact absurd rfl he

/-- C8 amended witness: on the halting program the loop body ends in
Halt at PC 1 and `emulate` returns the halt message normally. -/
theorem emulate_catches_halt_and_fault_witness :
    (haltExampleM.emulateBody 1).2 = Except.error (PyExc.halt 1)
      ∧ PyExc.halt 1 ≠ PyExc.indexError
      ∧ ((haltExampleM.emulate 1).2 = Except.ok (SAP1.msgOf (PyExc.halt 1))
        ∧ SAP1.msgOf (PyExc.halt 1) ≠ none) :=
  ⟨rfl, by decide,
    emulate_catches_halt_and_fault haltExampleM 1 (PyExc.halt 1) rfl (by decide)⟩

/-! ## C9 -/

/-- C9: execution is deterministic.  Loading the same image into two
freshly constructed machines yields the same machine, and after any
equal number of cycles the run results, the printed outputs and the
per-cycle state snapshots are identical. -/
theorem identical_images_run_identically (img : List (Nat × Nat)) (n : Nat)
    (s1 s2 : SAP1)
    (h1 : SAP1.init.loadImage img = some s1)
    (h2 : SAP1.init.loadImage img = some s2) :
    s1 = s2
      ∧ s1.emulateBody n = s2.emulateBody n
      ∧ SAP1.statesTrace n s1 = SAP1.statesTrace n s2
      ∧ s1.emulate n = s2.emulate n := by
  have hs : s1 = s2 := by
    rw [h1] at h2
    exact Option.some.inj h2
  subst hs
  exact ⟨rfl, rfl, rfl, rfl⟩

/-- C9 witness: loading the worked example image twice gives the same
machine, traces and results. -/
theorem identical_images_run_identically_witness :
    SAP1.init.loadImage [(0, 0x1E), (1, 0x2F), (2, 0x50), (3, 0xF0), (14, 14), (15, 28)]
        = some exampleM
      ∧ (exampleM = exampleM
        ∧ exampleM.emulateBody 5 = exampleM.emulateBody 5
        ∧ SAP1.statesTrace 5 exampleM = SAP1.statesTrace 5 exampleM
        ∧ exampleM.emulate 5 = exampleM.emulate 5) :=
  ⟨rfl,
    identical_images_run_identically
      [(0, 0x1E), (1, 0x2F), (2, 0x50), (3, 0xF0), (14, 14), (15, 28)] 5
      exampleM exampleM rfl rfl⟩

/-! ## C10 -/

/-- One loop iteration on a state whose memory is all zero: the fetched
instruction is NOP and only MAR, IR and PC change. -/
lemma step_on_zero_memory (s : SAP1)
    (h1 : s.memory = List.replicate 16 0) (h2 : s.PC_register < 16) :
    s.step = Except.ok ({ s with
                           MAR := s.PC_register,
                           IR := 0,
                           PC_register := (s.PC_register + 1) % 16 }, []) := by
  have hv : s.memory.get? s.PC_register = some 0 := by
    rw [h1]
    interval_cases s.PC_register <;> rfl
  simp only [SAP1.step, SAP1.fetch, hv, SAP1.execute, SAP1.NOP, Nat.zero_div]

/-- C10: the run loop is not total.  On the all-zero memory image every
fetched instruction is NOP, so for every iteration budget the loop body
is still running — no Halt, no InvalidInstruction, no error ever ends
it. -/
theorem zero_image_runs_forever (n : Nat) :
    ∃ s1, SAP1.init.emulateBody n = ([], Except.ok s1) := by
  suffices h : ∀ m (s : SAP1), s.memory = List.replicate 16 0 →
      s.PC_register < 16 → ∃ s1, s.emulateBody m = ([], Except.ok s1) by
    exact h n SAP1.init rfl (by decide)
  intro m
  induction m with
  | zero => exact fun s h1 h2 => ⟨s, rfl⟩
  | succ m ih =>
    intro s h1 h2
    obtain ⟨s1, hs1⟩ := ih { s with
        MAR := s.PC_register, IR := 0,
        PC_register := (s.PC_register + 1) % 16 }
      (by simpa using h1) (Nat.mod_lt _ (by norm_num))
    exact ⟨s1, by simp [SAP1.emulateBody, step_on_zero_memory s h1 h2, hs1]⟩
